import Mathlib

/-!
Shallow embedding of `src/open-mr.py`, a tool that opens a GitLab merge
request for the current branch and links it to a Jira ticket.

Conventions of the embedding:
* Python strings are Lean `String`s; regex operations from the source are
  modelled as executable functions over `List Char` (`String.data`).
* The HTTP layer is modelled by `send_https_request` acting on a mocked
  response (status and raw body); the orchestrator `runMain` acts on an
  environment of mocked successful API response data and records the
  network calls it performs as a trace.
* A Python function that can raise is modelled with `Option` / `Except`:
  `none` models an uncaught `AttributeError` (calling `.group` on the
  `None` result of a failed regex search), `Except.error` models a raised
  `Exception` carrying a message.
-/

/-! ## Configuration constants (lines 13-28 of the source) -/

def RED : String := "\x1b[0;31m"

def GREEN : String := "\x1b[0;32m"

def BLUE : String := "\x1b[0;34m"

def NC : String := "\x1b[0m"

def JIRA_HOST : String := "jira.atlassian.com"

def JIRA_API_VERSION : String := "2"

def GITLAB_HOST : String := "gitlab.com"

def GITLAB_API_VERSION : String := "v4"

def TARGET_BRANCH : String := "develop"

def SQUASH : Bool := true

def REMOVE_SOURCE_BRANCH : Bool := true

/-! ## Regex models

The source uses three regular expressions:
* `re.match` with pattern `TCRM-[0-9]*` (line 187, pattern from line 26);
* `re.search` with a slash, the group `([a-zA-Z0-9 HYPHEN]*)`, then the
  literal `.git`, on the remote URL (line 63);
* `re.search` with a slash, the group `([a-zA-Z HYPHEN]*)`, then the
  literal slash, hyphen, slash, `merge_requests`, on the MR link (line 141).

The latter two share the shape: slash, `(<class>*)`, `<literal>`.
Python's `re.search`
finds the leftmost start position at which the pattern matches, and at a
given start the greedy star prefers the longest group, backtracking to
shorter group lengths if the trailing literal does not follow.  `matchTask`
models the anchored `re.match`: the literal prefix `TCRM-` followed by the
greedy (maximal) run of digits; nothing follows the star, so no
backtracking arises. -/

/-- Model of `re.match('TCRM-[0-9]*', l).group()` on the characters `l`:
`some` of the matched text when the pattern matches at the start of the
input, `none` when it does not. -/
def matchTask (l : List Char) : Option (List Char) :=
  if l.take ("TCRM-".data).length = "TCRM-".data then
    some ("TCRM-".data ++ (l.drop ("TCRM-".data).length).takeWhile (fun c => c.isDigit))
  else none

/-- String-level wrapper of `matchTask`, as used on the branch name at
lines 186-191 of the source. -/
def matchTaskName (s : String) : Option String :=
  (matchTask s.data).map String.mk

/-- Character class of the service-name regex (line 141): ASCII letters
and the hyphen. -/
def isSvcChar (c : Char) : Bool := c.isAlpha || c = '-'

/-- Character class of the project-name regex (line 63): ASCII letters,
digits and the hyphen. -/
def isProjChar (c : Char) : Bool := c.isAlpha || c.isDigit || c = '-'

/-- Does the literal `lit` occur right here, at the head of `l`? -/
def litHere (lit l : List Char) : Bool := decide (l.take lit.length = lit)

/-- At one candidate start position (just after a matched `/`), try the
greedy star: group lengths from the maximal run of class characters down
to zero, accepting the first length after which the trailing literal
occurs.  Models the backtracking of `(<class>*)<literal>`. -/
def groupHere (cls : Char → Bool) (lit : List Char) (tl : List Char) : Option (List Char) :=
  ((List.range ((tl.takeWhile cls).length + 1)).reverse).findSome? fun k =>
    if litHere lit (tl.drop k) then some (tl.take k) else none

/-- Model of `re.search` for a pattern of shape slash, `(<cls>*)`,
`<lit>`, returning group 1: scan start positions left to right; at each
slash character try the greedy group.  `none` models a failed search (on
which the source's `.group(1)` raises). -/
def searchSlashGroup (cls : Char → Bool) (lit : List Char) : List Char → Option (List Char)
  | [] => none
  | c :: tl =>
    match (if c = '/' then groupHere cls lit tl else none) with
    | some g => some g
    | none => searchSlashGroup cls lit tl

/-- Model of `get_service_name_from` (lines 140-141): the search for
slash, `([a-zA-Z HYPHEN]*)`, then the literal written in the string below,
applied to the MR link, returning group 1; `none` for the
`AttributeError` raised when the search fails. -/
def get_service_name_from (mr_link : String) : Option String :=
  (searchSlashGroup isSvcChar "/-/merge_requests".data mr_link.data).map String.mk

/-- Model of the project-name extraction inside `get_project_id`
(line 63): the search for slash, `([a-zA-Z0-9 HYPHEN]*)`, then the
literal `.git`, applied to the remote URL, returning group 1; `none` for
the `AttributeError` raised when the search fails. -/
def projectNameFrom (remote_url : String) : Option String :=
  (searchSlashGroup isProjChar ".git".data remote_url.data).map String.mk

/-! ## HTTP layer (`send_https_request`, lines 44-59)

The mocked response carries the status and the raw body text; parsing of
a successful body (`json.load`) is abstracted by a `parse` argument, since
the claims about this layer concern the status dispatch and the error
message, not JSON syntax. -/

/-- A mocked HTTP response: numeric status and raw body text. -/
structure HttpResponse where
  status : Nat
  body : String
deriving DecidableEq

/-- The message of the `Exception` raised at lines 50-55 when the response
status differs from the expected one, rebuilt from the f-strings of the
source. -/
def requestFailedMsg (method host path body : String) (status : Nat) (respBody : String) : String :=
  RED ++ "Request failed" ++ NC ++ "\n" ++
  "request: " ++ method ++ " https://" ++ host ++ path ++ "\n" ++ body ++ "\n\n" ++
  "response status: " ++ toString status ++ "\n" ++
  "response body: " ++ respBody

/-- Model of `send_https_request` (lines 44-59) on a mocked response:
raises (returns `Except.error` with the message of lines 50-55) when the
status differs from the expected one, otherwise returns the parsed body.
The `headers` argument is carried for signature fidelity; the model does
not interpret it. -/
def send_https_request {α : Type} (parse : String → α) (method host path : String)
    (headers : List (String × String)) (body : String) (expectedStatus : Nat)
    (resp : HttpResponse) : Except String α :=
  if resp.status ≠ expectedStatus then
    Except.error (requestFailedMsg method host path body resp.status resp.body)
  else
    Except.ok (parse resp.body)

/-- A substring occurrence, at the level of character data. -/
def containsStr (s sub : String) : Prop :=
  ∃ pre post : List Char, s.data = pre ++ sub.data ++ post

/-! ## Data model of the mocked API responses -/

/-- One entry of the GitLab project-search response (the fields read at
lines 83-84). -/
structure Project where
  id : Nat
  ssh_url_to_repo : String
  http_url_to_repo : String
deriving DecidableEq

/-- The membership test of line 83: the remote URL equals the entry's SSH
or HTTPS clone URL. -/
def urlMatches (remote_url : String) (project : Project) : Bool :=
  remote_url = project.ssh_url_to_repo || remote_url = project.http_url_to_repo

/-- Model of `get_project_id` (lines 61-86) past the HTTP call: scan the
search response in order and return the id of the first entry whose SSH
or HTTPS clone URL equals the local remote URL; raise (line 86) with a
message carrying the remote URL when none matches. -/
def get_project_id (remote_url : String) (response : List Project) : Except String Nat :=
  match response.find? (urlMatches remote_url) with
  | some project => Except.ok project.id
  | none => Except.error (RED ++ "Cannot find project whith url:" ++ NC ++ " " ++ remote_url)

/-- Model of `get_already_exist_mr_link` (lines 97-110) past the HTTP
call: the response is the list of web URLs of the matching open MRs;
return the first one, or `none` when the list is empty. -/
def get_already_exist_mr_link (response : List String) : Option String :=
  response.head?

/-- Model of `is_issue_link_already_exist` (lines 143-154) past the HTTP
call: the response is the list of the URLs of the remote links already on
the ticket; return whether one of them equals the MR link. -/
def is_issue_link_already_exist (response : List String) (mr_link : String) : Bool :=
  response.any (fun url => url == mr_link)

/-- The JSON body built by `create_mr_request_body` (lines 112-120),
modelled as a record of its fields. -/
structure MRBody where
  title : String
  source_branch : String
  target_branch : String
  assignee_id : Nat
  squash : Bool
  remove_source_branch : Bool
deriving DecidableEq

/-- Model of `create_mr_request_body` (lines 112-120). -/
def create_mr_request_body (title current_branch target_branch : String) (user_id : Nat)
    (squash remove_source_branch : Bool) : MRBody :=
  ⟨title, current_branch, target_branch, user_id, squash, remove_source_branch⟩

/-- The JSON body built by `create_jira_issue_link_request_body`
(lines 156-165), modelled as a record of its fields. -/
structure JiraLinkBody where
  url : String
  title : String
  icon_url16x16 : String
deriving DecidableEq

/-- Model of `create_jira_issue_link_request_body` (lines 156-165): the
title is the service name extracted from the MR link; `none` models the
uncaught `AttributeError` propagating out of `get_service_name_from` when
that extraction fails. -/
def create_jira_issue_link_request_body (mr_link : String) : Option JiraLinkBody :=
  (get_service_name_from mr_link).map fun svc =>
    ⟨mr_link, svc, "https://" ++ GITLAB_HOST ++ "/favicon.ico"⟩

/-! ## The orchestrator (`main`, lines 177-232)

`runMain` acts on an environment of mocked successful responses (one per
network endpoint the run may hit) and records the network calls it makes,
in order, as a trace.  Claims about runs in which an HTTP call itself
fails with an unexpected status live at the `send_https_request` layer. -/

/-- One network call of the tool, with the data it sends. -/
inductive Call where
  /-- GET the GitLab project search (lines 66-80), with the search term. -/
  | getProjects (search : String)
  /-- GET the current GitLab user (`get_user_id`, lines 89-95). -/
  | getUser
  /-- GET the open MRs for the branch pair (lines 98-106). -/
  | listMRs (projectId : Nat) (sourceBranch targetBranch : String)
  /-- POST creating the MR (`create_mr`, lines 122-130), with its body. -/
  | createMR (projectId : Nat) (body : MRBody)
  /-- GET the Jira issue (`get_task_title`, lines 132-138). -/
  | getIssue (task : String)
  /-- GET the remote links of the issue (lines 144-149). -/
  | listRemoteLinks (task : String)
  /-- POST adding a remote link (`add_jira_issue_link`, lines 167-175),
  with its body. -/
  | addRemoteLink (task : String) (body : JiraLinkBody)
deriving DecidableEq

/-- How a run of `main` ends. -/
inductive Outcome where
  /-- The run completes and prints the final browse URL (line 232);
  `mrLink` is the MR URL in scope at that point. -/
  | ok (mrLink : String)
  /-- `exit(1)`: a precondition gate failed (line 184 or line 190). -/
  | exit1
  /-- An uncaught `AttributeError` from calling `.group` on the `None`
  result of a failed regex search (line 63 or line 141). -/
  | attrError
  /-- An uncaught `Exception` with the given message (line 86). -/
  | raised (msg : String)
deriving DecidableEq

/-- Observable result of a run: the outcome, the trace of network calls
in order, and the MR URL with which the reciprocal-link step (lines
223-230) was entered, `none` when the run ended before it. -/
structure RunResult where
  outcome : Outcome
  calls : List Call
  linkUrl : Option String
deriving DecidableEq

/-- The environment of a run: the local git state and the mocked
successful response data of each endpoint. -/
structure Env where
  /-- output of `git branch --show-current` (line 42). -/
  currentBranch : String
  /-- output of `git remote get-url origin` (line 62). -/
  remoteUrl : String
  /-- response of the project search (lines 66-80). -/
  projects : List Project
  /-- `id` field of the current-user response (lines 89-95). -/
  userId : Nat
  /-- web URLs of the open-MR list response (lines 98-106). -/
  openMRs : List String
  /-- `web_url` field of the MR-creation response (line 130). -/
  createdMRUrl : String
  /-- `fields.summary` of the issue response (line 138). -/
  taskTitle : String
  /-- URLs of the remote links in the issue remote-link response
  (lines 144-152). -/
  remoteLinks : List String

/-- The reciprocal-link step of `main` (lines 223-230), entered with the
MR URL `mr_link` and the trace accumulated so far: list the remote links
of the ticket; when none equals `mr_link`, add one (building its body may
raise, line 141 via line 160). -/
def linkStep (env : Env) (task mr_link : String) (calls : List Call) : RunResult :=
  let calls := calls ++ [Call.listRemoteLinks task]
  if is_issue_link_already_exist env.remoteLinks mr_link then
    ⟨Outcome.ok mr_link, calls, some mr_link⟩
  else
    match create_jira_issue_link_request_body mr_link with
    | none => ⟨Outcome.attrError, calls, some mr_link⟩
    | some body => ⟨Outcome.ok mr_link, calls ++ [Call.addRemoteLink task body], some mr_link⟩

/-- Model of `main` (lines 177-232) over the environment `env`. -/
def runMain (env : Env) : RunResult :=
  let current_branch := env.currentBranch
  if current_branch = TARGET_BRANCH then
    ⟨Outcome.exit1, [], none⟩
  else
    match matchTaskName current_branch with
    | none => ⟨Outcome.exit1, [], none⟩
    | some task =>
      match projectNameFrom env.remoteUrl with
      | none => ⟨Outcome.attrError, [], none⟩
      | some project_name =>
        match get_project_id env.remoteUrl env.projects with
        | Except.error msg => ⟨Outcome.raised msg, [Call.getProjects project_name], none⟩
        | Except.ok project_id =>
          let calls := [Call.getProjects project_name,
                        Call.listMRs project_id current_branch TARGET_BRANCH]
          match get_already_exist_mr_link env.openMRs with
          | some mr_link => linkStep env task mr_link calls
          | none =>
            let title := task ++ env.taskTitle
            let body := create_mr_request_body title current_branch TARGET_BRANCH
              env.userId SQUASH REMOVE_SOURCE_BRANCH
            linkStep env task env.createdMRUrl
              (calls ++ [Call.getIssue task, Call.getUser, Call.createMR project_id body])

/-- Is a trace entry the MR-creation POST? -/
def isCreateCall : Call → Bool
  | Call.createMR _ _ => true
  | _ => false

/-- Is a trace entry the remote-link-creation POST? -/
def isAddLinkCall : Call → Bool
  | Call.addRemoteLink _ _ => true
  | _ => false

/-! ## Concrete environments used to instantiate the theorems -/

/-- A well-formed environment in which no open MR exists yet: the branch
name carries a ticket id, the remote URL resolves, the project search
finds the repository, and the ticket has no remote links. -/
def envNoOpenMR : Env :=
  { currentBranch := "TCRM-1-x"
    remoteUrl := "git@gitlab.com:g/repo.git"
    projects := [⟨42, "git@gitlab.com:g/repo.git", "https://gitlab.com/g/repo.git"⟩]
    userId := 9
    openMRs := []
    createdMRUrl := "https://gitlab.com/g/repo/-/merge_requests/3"
    taskTitle := " do things"
    remoteLinks := [] }

/-- Like `envNoOpenMR`, but one matching open MR already exists. -/
def envOneOpenMR : Env :=
  { envNoOpenMR with openMRs := ["https://gitlab.com/g/repo/-/merge_requests/3"] }

/-- Like `envNoOpenMR`, but the existing open MR's URL has a repository
path segment containing a digit, on which the service-name extraction of
line 141 finds no match. -/
def envDigitMR : Env :=
  { envNoOpenMR with openMRs := ["https://gitlab.com/g/my-service2/-/merge_requests/7"] }

/-- Like `envNoOpenMR`, but the existing open MR's URL has a repository
path segment containing an underscore, on which the service-name
extraction of line 141 finds no match. -/
def envUnderscoreMR : Env :=
  { envNoOpenMR with openMRs := ["https://gitlab.com/g/my_service/-/merge_requests/7"] }

/-- An environment whose branch name does not carry a ticket id. -/
def envBadBranch : Env :=
  { envNoOpenMR with currentBranch := "fix-bug" }

/-- An environment whose current branch is the target branch. -/
def envOnTarget : Env :=
  { envNoOpenMR with currentBranch := "develop" }

/-! ## Helper lemmas -/

/-- Split a `takeWhile` across an append whose left part satisfies the
predicate throughout. -/
theorem takeWhile_append_of_all {α : Type} (p : α → Bool) :
    ∀ (l r : List α), (∀ c ∈ l, p c) → (l ++ r).takeWhile p = l ++ r.takeWhile p
  | [], _, _ => rfl
  | c :: l, r, h => by
    have hc : p c := h c (List.mem_cons_self c l)
    simp only [List.cons_append, List.takeWhile_cons, hc, if_true]
    exact congrArg (c :: ·) (takeWhile_append_of_all p l r fun x hx =>
      h x (List.mem_cons_of_mem c hx))

/-- `matchTask` on an input starting with the literal prefix: the match is
the prefix followed by the maximal digit run after it. -/
theorem matchTask_tcrm (rest : List Char) :
    matchTask ("TCRM-".data ++ rest) =
      some ("TCRM-".data ++ rest.takeWhile (fun c => c.isDigit)) := by
  unfold matchTask
  rw [List.take_left, List.drop_left, if_pos rfl]

/-- `find?` returns the element singled out by being the unique one
satisfying the predicate. -/
theorem find_eq_some_of_unique {α : Type} (f : α → Bool) :
    ∀ (l : List α) (a : α), a ∈ l → f a = true → (∀ b ∈ l, f b = true → b = a) →
      l.find? f = some a
  | [], a, ha, _, _ => absurd ha (List.not_mem_nil a)
  | c :: l, a, ha, hfa, huniq => by
    by_cases hc : f c = true
    · rw [List.find?_cons_of_pos _ hc]
      exact congrArg some (huniq c (List.mem_cons_self c l) hc).symm ▸ rfl
    · rw [List.find?_cons_of_neg _ (by simpa using hc)]
      have ha' : a ∈ l := by
        rcases List.mem_cons.mp ha with h | h
        · exact absurd (h ▸ hfa) hc
        · exact h
      exact find_eq_some_of_unique f l a ha' hfa fun b hb hfb =>
        huniq b (List.mem_cons_of_mem c hb) hfb

/-! ## Claim theorems -/

/-- C6: for a current branch name equal to the configured target branch,
the tool exits with a non-zero exit code and performs no network call. -/
theorem target_branch_exits_without_network (env : Env)
    (h : env.currentBranch = TARGET_BRANCH) :
    (runMain env).outcome = Outcome.exit1 ∧ (runMain env).calls = [] := by
  unfold runMain
  rw [if_pos h]
  exact ⟨rfl, rfl⟩

/-- Witness for C6 on a concrete environment checked out on `develop`. -/
theorem target_branch_exits_without_network_witness :
    envOnTarget.currentBranch = TARGET_BRANCH ∧
      (runMain envOnTarget).outcome = Outcome.exit1 ∧ (runMain envOnTarget).calls = [] :=
  ⟨by decide, target_branch_exits_without_network envOnTarget (by decide)⟩

/-- C5: for every branch name that does not match the configured ticket-id
pattern, the tool exits with a non-zero exit code and performs no network
call. -/
theorem unmatched_branch_exits_without_network (env : Env)
    (h : matchTaskName env.currentBranch = none) :
    (runMain env).outcome = Outcome.exit1 ∧ (runMain env).calls = [] := by
  unfold runMain
  by_cases hb : env.currentBranch = TARGET_BRANCH
  · rw [if_pos hb]
    exact ⟨rfl, rfl⟩
  · rw [if_neg hb, h]
    exact ⟨rfl, rfl⟩

/-- Witness for C5 on a concrete environment with branch `fix-bug`. -/
theorem unmatched_branch_exits_without_network_witness :
    matchTaskName envBadBranch.currentBranch = none ∧
      (runMain envBadBranch).outcome = Outcome.exit1 ∧ (runMain envBadBranch).calls = [] :=
  ⟨by decide, unmatched_branch_exits_without_network envBadBranch (by decide)⟩

/-- C7: for a branch of the form prefix, hyphen, digits, hyphen, rest
under the configured pattern (prefix `TCRM`), the extracted ticket id is
the prefix followed by the digits. -/
theorem ticket_extraction_takes_matched_prefix (ds : List Char) (rest : String)
    (h1 : ds ≠ []) (h2 : ∀ c ∈ ds, c.isDigit) :
    matchTaskName ("TCRM-" ++ String.mk ds ++ "-" ++ rest) =
      some ("TCRM-" ++ String.mk ds) := by
  have hdata : ("TCRM-" ++ String.mk ds ++ "-" ++ rest).data =
      "TCRM-".data ++ (ds ++ '-' :: rest.data) := by
    simp [String.data_append]
  unfold matchTaskName
  rw [hdata, matchTask_tcrm, takeWhile_append_of_all _ ds ('-' :: rest.data) h2]
  have hminus : ('-' :: rest.data).takeWhile (fun c => c.isDigit) = [] := by
    simp [List.takeWhile_cons]
  rw [hminus, List.append_nil]
  exact congrArg some (String.ext (by simp [String.data_append]))

/-- Witness for C7: branch `TCRM-42-fix-bug` yields ticket id `TCRM-42`. -/
theorem ticket_extraction_takes_matched_prefix_witness :
    ('4' :: '2' :: [] ≠ ([] : List Char)) ∧ (∀ c ∈ ['4', '2'], c.isDigit) ∧
      matchTaskName ("TCRM-" ++ String.mk ['4', '2'] ++ "-" ++ "fix-bug") =
        some ("TCRM-" ++ String.mk ['4', '2']) :=
  ⟨by decide, by decide,
    ticket_extraction_takes_matched_prefix ['4', '2'] "fix-bug" (by decide) (by decide)⟩

/-- C9: every branch name beginning with the literal `TCRM-` passes the
ticket-pattern gate, even when no digit follows, and the extracted ticket
id is the prefix followed by the maximal digit run after it (the bare
prefix when no digit follows). -/
theorem tcrm_branch_always_passes_gate (rest : List Char) :
    matchTaskName ("TCRM-" ++ String.mk rest) =
      some ("TCRM-" ++ String.mk (rest.takeWhile (fun c => c.isDigit))) := by
  have hdata : ("TCRM-" ++ String.mk rest).data = "TCRM-".data ++ rest := by
    simp [String.data_append]
  unfold matchTaskName
  rw [hdata, matchTask_tcrm]
  exact congrArg some (String.ext (by simp [String.data_append]))

/-- C8: the display title derived for the reciprocal link is the path
segment of the MR URL immediately preceding the `merge_requests` marker:
the spec's example URL yields `my-service`. -/
theorem service_name_from_example_url :
    get_service_name_from "https://host/group/my-service/-/merge_requests/7" =
      some "my-service" := by decide

/-- C3: repository-id resolution returns the id of the entry that is the
unique match of the result set by SSH or HTTPS clone URL, and raises a
repository-not-found error carrying the searched remote URL when no entry
matches. -/
theorem get_project_id_resolution (remote_url : String) (response : List Project) :
    (∀ p ∈ response, urlMatches remote_url p = true →
      (∀ q ∈ response, urlMatches remote_url q = true → q = p) →
      get_project_id remote_url response = Except.ok p.id)
    ∧ ((∀ p ∈ response, urlMatches remote_url p = false) →
      ∃ msg, get_project_id remote_url response = Except.error msg ∧
        containsStr msg remote_url) := by
  constructor
  · intro p hp hm hu
    unfold get_project_id
    rw [find_eq_some_of_unique (urlMatches remote_url) response p hp hm hu]
  · intro h
    have hnone : response.find? (urlMatches remote_url) = none :=
      List.find?_eq_none.mpr fun p hp => by simp [h p hp]
    refine ⟨RED ++ "Cannot find project whith url:" ++ NC ++ " " ++ remote_url, ?_, ?_⟩
    · unfold get_project_id
      rw [hnone]
    · exact ⟨(RED ++ "Cannot find project whith url:" ++ NC ++ " ").data, [],
        by simp [String.data_append]⟩

/-- Witness for C3: a one-entry result set matched by its SSH URL, and an
empty result set raising the error around the searched URL. -/
theorem get_project_id_resolution_witness :
    get_project_id "git@g:a/r.git" [⟨5, "git@g:a/r.git", "https://g/a/r.git"⟩] =
      Except.ok 5
    ∧ ∃ msg, get_project_id "u" [] = Except.error msg ∧ containsStr msg "u" := by
  constructor
  · exact (get_project_id_resolution "git@g:a/r.git"
      [⟨5, "git@g:a/r.git", "https://g/a/r.git"⟩]).1
      ⟨5, "git@g:a/r.git", "https://g/a/r.git"⟩ (by decide) (by decide) (by decide)
  · exact (get_project_id_resolution "u" []).2 (by decide)

/-- C4: when the response status differs from the expected one, the HTTP
helper raises an error whose message contains the request method, the
full URL, the request body, the response status and the response body;
when it matches, the parsed response body is returned. -/
theorem send_https_request_status_contract {α : Type} (parse : String → α)
    (method host path : String) (headers : List (String × String)) (body : String)
    (expectedStatus : Nat) (resp : HttpResponse) :
    (resp.status ≠ expectedStatus →
      ∃ msg,
        send_https_request parse method host path headers body expectedStatus resp =
          Except.error msg ∧
        containsStr msg method ∧ containsStr msg ("https://" ++ host ++ path) ∧
        containsStr msg body ∧ containsStr msg (toString resp.status) ∧
        containsStr msg resp.body)
    ∧ (resp.status = expectedStatus →
      send_https_request parse method host path headers body expectedStatus resp =
        Except.ok (parse resp.body)) := by
  have hsp : (" https://" : String).data = ' ' :: ("https://" : String).data := rfl
  constructor
  · intro h
    refine ⟨requestFailedMsg method host path body resp.status resp.body, ?_, ?_, ?_, ?_, ?_, ?_⟩
    · unfold send_https_request
      rw [if_pos h]
    · exact ⟨(RED ++ "Request failed" ++ NC ++ "\n" ++ "request: ").data,
        (" https://" ++ host ++ path ++ "\n" ++ body ++ "\n\n" ++
          "response status: " ++ toString resp.status ++ "\n" ++
          "response body: " ++ resp.body).data,
        by simp [requestFailedMsg, String.data_append]⟩
    · exact ⟨(RED ++ "Request failed" ++ NC ++ "\n" ++ "request: " ++ method ++ " ").data,
        ("\n" ++ body ++ "\n\n" ++ "response status: " ++ toString resp.status ++ "\n" ++
          "response body: " ++ resp.body).data,
        by simp [requestFailedMsg, String.data_append, hsp]⟩
    · exact ⟨(RED ++ "Request failed" ++ NC ++ "\n" ++ "request: " ++ method ++ " https://" ++
          host ++ path ++ "\n").data,
        ("\n\n" ++ "response status: " ++ toString resp.status ++ "\n" ++
          "response body: " ++ resp.body).data,
        by simp [requestFailedMsg, String.data_append]⟩
    · exact ⟨(RED ++ "Request failed" ++ NC ++ "\n" ++ "request: " ++ method ++ " https://" ++
          host ++ path ++ "\n" ++ body ++ "\n\n" ++ "response status: ").data,
        ("\n" ++ "response body: " ++ resp.body).data,
        by simp [requestFailedMsg, String.data_append]⟩
    · exact ⟨(RED ++ "Request failed" ++ NC ++ "\n" ++ "request: " ++ method ++ " https://" ++
          host ++ path ++ "\n" ++ body ++ "\n\n" ++ "response status: " ++
          toString resp.status ++ "\n" ++ "response body: ").data, [],
        by simp [requestFailedMsg, String.data_append]⟩
  · intro h
    unfold send_https_request
    rw [if_neg (not_not_intro h)]

/-- Witness for C4: a 404 against an expected 200 raises with all five
pieces of context in the message; a matching 200 returns the parsed
body. -/
theorem send_https_request_status_contract_witness :
    (∃ msg,
      send_https_request (fun s => s) "GET" "gitlab.com" "/api/v4/user" [] "reqbody" 200
          ⟨404, "nope"⟩ = Except.error msg ∧
        containsStr msg "GET" ∧ containsStr msg ("https://" ++ "gitlab.com" ++ "/api/v4/user") ∧
        containsStr msg "reqbody" ∧ containsStr msg (toString (404 : Nat)) ∧
        containsStr msg "nope")
    ∧ send_https_request (fun s => s) "GET" "gitlab.com" "/api/v4/user" [] "reqbody" 200
        ⟨200, "{}"⟩ = Except.ok "{}" := by
  constructor
  · exact (send_https_request_status_contract (fun s => s) "GET" "gitlab.com" "/api/v4/user"
      [] "reqbody" 200 ⟨404, "nope"⟩).1 (by decide)
  · exact (send_https_request_status_contract (fun s => s) "GET" "gitlab.com" "/api/v4/user"
      [] "reqbody" 200 ⟨200, "{}"⟩).2 rfl

/-- A run whose precondition gates pass and whose project resolution
succeeds reduces to the reciprocal-link step, entered with the first open
MR's URL when the lookup found one and with the freshly created MR's URL
otherwise. -/
theorem runMain_reach (env : Env) (task project_name : String) (project_id : Nat)
    (hb : ¬ env.currentBranch = TARGET_BRANCH)
    (ht : matchTaskName env.currentBranch = some task)
    (hp : projectNameFrom env.remoteUrl = some project_name)
    (hid : get_project_id env.remoteUrl env.projects = Except.ok project_id) :
    runMain env =
      match env.openMRs with
      | mr_link :: _ => linkStep env task mr_link
          [Call.getProjects project_name,
           Call.listMRs project_id env.currentBranch TARGET_BRANCH]
      | [] => linkStep env task env.createdMRUrl
          ([Call.getProjects project_name,
            Call.listMRs project_id env.currentBranch TARGET_BRANCH] ++
           [Call.getIssue task, Call.getUser,
            Call.createMR project_id (create_mr_request_body (task ++ env.taskTitle)
              env.currentBranch TARGET_BRANCH env.userId SQUASH REMOVE_SOURCE_BRANCH)]) := by
  unfold runMain
  rw [if_neg hb]
  simp only [ht, hp, hid, get_already_exist_mr_link]
  cases env.openMRs <;> simp

/-- The reciprocal-link step enters with the given MR URL. -/
theorem linkStep_linkUrl (env : Env) (task u : String) (calls : List Call) :
    (linkStep env task u calls).linkUrl = some u := by
  unfold linkStep
  by_cases h : is_issue_link_already_exist env.remoteLinks u
  · rw [if_pos h]
  · rw [if_neg h]
    cases create_jira_issue_link_request_body u <;> rfl

/-- The reciprocal-link step performs no MR-creation call. -/
theorem linkStep_countP_create (env : Env) (task u : String) (calls : List Call) :
    (linkStep env task u calls).calls.countP isCreateCall = calls.countP isCreateCall := by
  unfold linkStep
  by_cases h : is_issue_link_already_exist env.remoteLinks u
  · rw [if_pos h]
    simp [List.countP_append, isCreateCall]
  · rw [if_neg h]
    cases create_jira_issue_link_request_body u <;>
      simp [List.countP_append, isCreateCall]

/-- The reciprocal-link step keeps every call already in the trace. -/
theorem linkStep_mem_of_mem (env : Env) (task u : String) (calls : List Call) (c : Call)
    (h : c ∈ calls) : c ∈ (linkStep env task u calls).calls := by
  unfold linkStep
  by_cases hl : is_issue_link_already_exist env.remoteLinks u
  · rw [if_pos hl]
    exact List.mem_append_left _ h
  · rw [if_neg hl]
    cases create_jira_issue_link_request_body u
    · exact List.mem_append_left _ h
    · exact List.mem_append_left _ (List.mem_append_left _ h)

/-- Number of add-link calls made by the reciprocal-link step: none when a
link with the MR URL already exists, and otherwise one per successful body
construction. -/
theorem linkStep_countP_add (env : Env) (task u : String) (calls : List Call) :
    (linkStep env task u calls).calls.countP isAddLinkCall =
      calls.countP isAddLinkCall +
        (if is_issue_link_already_exist env.remoteLinks u then 0
         else match create_jira_issue_link_request_body u with
           | none => 0
           | some _ => 1) := by
  unfold linkStep
  by_cases h : is_issue_link_already_exist env.remoteLinks u
  · rw [if_pos h, if_pos h]
    simp [List.countP_append, isAddLinkCall]
  · rw [if_neg h, if_neg h]
    cases create_jira_issue_link_request_body u <;>
      simp [List.countP_append, isAddLinkCall]

/-- Any add-link call in the trace after the reciprocal-link step that was
not already there carries the step's task and a body built from the step's
MR URL. -/
theorem linkStep_add_mem (env : Env) (task u : String) (calls : List Call)
    (h : ∀ t b, Call.addRemoteLink t b ∉ calls) :
    ∀ t b, Call.addRemoteLink t b ∈ (linkStep env task u calls).calls →
      t = task ∧ create_jira_issue_link_request_body u = some b := by
  intro t b hmem
  unfold linkStep at hmem
  by_cases hl : is_issue_link_already_exist env.remoteLinks u
  · rw [if_pos hl] at hmem
    rcases List.mem_append.mp hmem with hc | hc
    · exact absurd hc (h t b)
    · simp at hc
  · rw [if_neg hl] at hmem
    cases hcb : create_jira_issue_link_request_body u with
    | none =>
      rw [hcb] at hmem
      rcases List.mem_append.mp hmem with hc | hc
      · exact absurd hc (h t b)
      · simp at hc
    | some body =>
      rw [hcb] at hmem
      rcases List.mem_append.mp hmem with hc | hc
      · rcases List.mem_append.mp hc with hc' | hc'
        · exact absurd hc' (h t b)
        · simp at hc'
      · simp at hc
        exact ⟨hc.1, by rw [hc.2]⟩

/-- C1: in every run that reaches the merge-request check, the MR-creation
call is made exactly once when the open-MR lookup for the branch pair
returned no match and never when it returned one, and in the latter case
the first match's web URL is the one the reciprocal-link step is entered
with. -/
theorem mr_created_iff_no_open_mr (env : Env) (task project_name : String) (project_id : Nat)
    (hb : ¬ env.currentBranch = TARGET_BRANCH)
    (ht : matchTaskName env.currentBranch = some task)
    (hp : projectNameFrom env.remoteUrl = some project_name)
    (hid : get_project_id env.remoteUrl env.projects = Except.ok project_id) :
    ((runMain env).calls.countP isCreateCall = if env.openMRs = [] then 1 else 0)
    ∧ (∀ u rest, env.openMRs = u :: rest → (runMain env).linkUrl = some u)
    ∧ Call.listMRs project_id env.currentBranch TARGET_BRANCH ∈ (runMain env).calls := by
  have hrun := runMain_reach env task project_name project_id hb ht hp hid
  cases hmr : env.openMRs with
  | nil =>
    rw [hmr] at hrun
    refine ⟨?_, ?_, ?_⟩
    · rw [hrun, linkStep_countP_create]
      simp [List.countP_cons, isCreateCall]
    · intro u rest heq
      exact absurd heq (by simp)
    · rw [hrun]
      exact linkStep_mem_of_mem _ _ _ _ _ (by simp)
  | cons u rest =>
    rw [hmr] at hrun
    refine ⟨?_, ?_, ?_⟩
    · rw [hrun, linkStep_countP_create]
      simp [List.countP_cons, isCreateCall]
    · intro u' rest' heq
      injection heq with h1 h2
      rw [hrun, linkStep_linkUrl, h1]
    · rw [hrun]
      exact linkStep_mem_of_mem _ _ _ _ _ (by simp)

/-- Witness for C1 on a concrete environment with no open MR, in which
exactly one creation call is made. -/
theorem mr_created_iff_no_open_mr_witness :
    ((runMain envNoOpenMR).calls.countP isCreateCall =
      if envNoOpenMR.openMRs = [] then 1 else 0)
    ∧ (∀ u rest, envNoOpenMR.openMRs = u :: rest → (runMain envNoOpenMR).linkUrl = some u)
    ∧ Call.listMRs 42 envNoOpenMR.currentBranch TARGET_BRANCH ∈ (runMain envNoOpenMR).calls :=
  mr_created_iff_no_open_mr envNoOpenMR "TCRM-1" "repo" 42
    (by decide) (by decide) (by decide) (by rfl)

/-- C2 as stated is falsified by this concrete run: the reciprocal-link
step is reached with an MR URL no existing remote link equals, yet the
add-link call is not made, because deriving the display title from that
URL fails. -/
theorem add_link_guard_counterexample :
    (runMain envDigitMR).linkUrl =
      some "https://gitlab.com/g/my-service2/-/merge_requests/7"
    ∧ is_issue_link_already_exist envDigitMR.remoteLinks
        "https://gitlab.com/g/my-service2/-/merge_requests/7" = false
    ∧ (runMain envDigitMR).calls.countP isAddLinkCall = 0 := by decide

/-- C2 (amended): in every run that reaches the reciprocal-link step with
MR URL `u` from which the display title is derivable, the add-link call is
made if and only if no existing remote link on the ticket has URL `u`;
when made, it is made exactly once, with the run's task, URL `u` and the
derived title. -/
theorem add_link_iff_absent_of_title_derivable (env : Env)
    (task project_name u svc : String) (project_id : Nat)
    (hb : ¬ env.currentBranch = TARGET_BRANCH)
    (ht : matchTaskName env.currentBranch = some task)
    (hp : projectNameFrom env.remoteUrl = some project_name)
    (hid : get_project_id env.remoteUrl env.projects = Except.ok project_id)
    (hu : (runMain env).linkUrl = some u)
    (hsvc : get_service_name_from u = some svc) :
    ((runMain env).calls.countP isAddLinkCall =
      if is_issue_link_already_exist env.remoteLinks u then 0 else 1)
    ∧ (∀ t b, Call.addRemoteLink t b ∈ (runMain env).calls →
        t = task ∧ b.url = u ∧ b.title = svc) := by
  have hrun := runMain_reach env task project_name project_id hb ht hp hid
  have hbody : create_jira_issue_link_request_body u =
      some ⟨u, svc, "https://" ++ GITLAB_HOST ++ "/favicon.ico"⟩ := by
    simp [create_jira_issue_link_request_body, hsvc]
  cases hmr : env.openMRs with
  | nil =>
    rw [hmr] at hrun
    have huv : u = env.createdMRUrl := by
      rw [hrun, linkStep_linkUrl] at hu
      exact (Option.some.inj hu).symm
    rw [← huv] at hrun
    refine ⟨?_, ?_⟩
    · rw [hrun, linkStep_countP_add, hbody]
      simp [List.countP_cons, isAddLinkCall]
    · intro t b hmem
      rw [hrun] at hmem
      obtain ⟨h1, h2⟩ := linkStep_add_mem env task u _ (by simp) t b hmem
      rw [hbody] at h2
      have hb2 := Option.some.inj h2
      exact ⟨h1, by rw [← hb2], by rw [← hb2]⟩
  | cons u0 rest =>
    rw [hmr] at hrun
    have huv : u = u0 := by
      rw [hrun, linkStep_linkUrl] at hu
      exact (Option.some.inj hu).symm
    rw [← huv] at hrun
    refine ⟨?_, ?_⟩
    · rw [hrun, linkStep_countP_add, hbody]
      simp [List.countP_cons, isAddLinkCall]
    · intro t b hmem
      rw [hrun] at hmem
      obtain ⟨h1, h2⟩ := linkStep_add_mem env task u _ (by simp) t b hmem
      rw [hbody] at h2
      have hb2 := Option.some.inj h2
      exact ⟨h1, by rw [← hb2], by rw [← hb2]⟩

/-- Witness for the amended C2 on a concrete environment with one open MR
and no existing remote link, in which the add-link call is made once. -/
theorem add_link_iff_absent_of_title_derivable_witness :
    ((runMain envOneOpenMR).calls.countP isAddLinkCall =
      if is_issue_link_already_exist envOneOpenMR.remoteLinks
          "https://gitlab.com/g/repo/-/merge_requests/3" then 0 else 1)
    ∧ (∀ t b, Call.addRemoteLink t b ∈ (runMain envOneOpenMR).calls →
        t = "TCRM-1" ∧ b.url = "https://gitlab.com/g/repo/-/merge_requests/3" ∧
          b.title = "repo") :=
  add_link_iff_absent_of_title_derivable envOneOpenMR "TCRM-1" "repo"
    "https://gitlab.com/g/repo/-/merge_requests/3" "repo" 42
    (by decide) (by decide) (by decide) (by rfl) (by decide) (by decide)

/-- C10: deriving the display title from an MR URL whose repository path
segment contains a digit or an underscore finds no regex match (the
source then calls `.group` on `None`), and a run reaching the link step
with such a URL ends in the uncaught-exception outcome, not the
exit-code-1 path, without making the add-link call. -/
theorem bad_service_segment_raises_uncaught :
    get_service_name_from "https://gitlab.com/g/my-service2/-/merge_requests/7" = none
    ∧ get_service_name_from "https://gitlab.com/g/my_service/-/merge_requests/7" = none
    ∧ (runMain envUnderscoreMR).outcome = Outcome.attrError
    ∧ (runMain envUnderscoreMR).outcome ≠ Outcome.exit1
    ∧ (runMain envUnderscoreMR).calls.countP isAddLinkCall = 0 := by decide
